import Mathlib

/-!
Shallow embedding of `manual_parallel.py`, a script that authenticates against
BMC HTTP endpoints and sets fan duty on each targeted node.  HTTP transport is
modelled by a `Server` oracle `HttpRequest → Except String HttpResponse`; a
`.error` result models a raised transport exception, and missing JSON fields /
headers model the corresponding Python `KeyError` / `IndexError`.  Python's
class-level `Fans.headers` dictionary is modelled as an explicit association
list threaded through the methods (for the class-attribute sharing itself see
`ProcState` below).
-/

/-- A JSON value as used by the script: every payload and every field the code
reads is a flat string/integer object, so we model exactly those. -/
inductive JVal where
  | s (v : String) : JVal
  | n (v : Int) : JVal
deriving DecidableEq, Repr

/-- Python `str()` applied to a decoded JSON leaf, as used in f-strings and in
`str(random_string)`. -/
def JVal.pyStr : JVal → String
  | .s v => v
  | .n v => toString v

/-- A flat JSON object (a Python dict decoded from JSON). -/
abbrev JObj := List (String × JVal)

/-- `d[k]` on a decoded JSON dict: `none` models a Python `KeyError`. -/
def jget : JObj → String → Option JVal
  | [], _ => none
  | (k', v) :: rest, k => if k' = k then some v else jget rest k

/-- An HTTP header map (a Python dict of strings), insertion ordered. -/
abbrev Headers := List (String × String)

/-- `d[k]` on a header dict. -/
def hget : Headers → String → Option String
  | [], _ => none
  | (k', v') :: rest, k => if k' = k then some v' else hget rest k

/-- `d[k] = v` on a header dict: update in place if present, else append
(Python dict insertion-order semantics). -/
def hset : Headers → String → String → Headers
  | [], k, v => [(k, v)]
  | (k', v') :: rest, k, v =>
      if k' = k then (k, v) :: rest else (k', v') :: hset rest k v

instance {ε α : Type} [DecidableEq ε] [DecidableEq α] : DecidableEq (Except ε α) := fun x y =>
  match x, y with
  | .ok a, .ok b => if h : a = b then isTrue (h ▸ rfl) else isFalse (by simp [h])
  | .error a, .error b => if h : a = b then isTrue (h ▸ rfl) else isFalse (by simp [h])
  | .ok _, .error _ => isFalse (by simp)
  | .error _, .ok _ => isFalse (by simp)

/-- One HTTP request as issued by `requests.get/post/put`: the method, the full
URL, the header dict passed along and the JSON (or form) payload. -/
structure HttpRequest where
  method : String
  url : String
  reqHeaders : Headers
  body : JObj
deriving DecidableEq, Repr

/-- One HTTP response: its header map (for `Set-Cookie`), its decoded JSON body
and its raw text. -/
structure HttpResponse where
  respHeaders : Headers
  body : JObj
  text : String
deriving DecidableEq, Repr

/-- The transport oracle: what the network/server does with one request.
`.error` models a raised `requests` exception. -/
abbrev Server := HttpRequest → Except String HttpResponse

/-! ### Python `int()` and `str.split("-")`, as used by `parse_node_range` -/

/-- Value of a decimal digit character, `none` on a non-digit. -/
def digitVal : Char → Option Nat
  | c => if c.isDigit then some (c.toNat - 48) else none

/-- Value of a nonempty all-digit character run, `none` otherwise: the core of
Python `int()` on a string. -/
def digitsVal (l : List Char) : Option Nat :=
  if l = [] then none
  else l.foldl (fun acc c => acc.bind fun n => (digitVal c).map fun d => 10 * n + d) (some 0)

/-- Python `int(s)` on the relevant inputs: an optional sign followed by a
nonempty digit run; `none` models the `ValueError` raised otherwise. -/
def pyInt : List Char → Option Int
  | '-' :: rest => (digitsVal rest).map fun n => -(n : Int)
  | '+' :: rest => (digitsVal rest).map fun n => (n : Int)
  | l => (digitsVal l).map fun n => (n : Int)

/-- Python `s.split("-")` (single-character separator, empty parts kept). -/
def splitOnDash : List Char → List (List Char)
  | [] => [[]]
  | c :: rest =>
      if c = '-' then [] :: splitOnDash rest
      else
        match splitOnDash rest with
        | [] => [[c]]
        | p :: ps => (c :: p) :: ps

/-- Python `range(start, stop)` as a list of integers. -/
def pyRange (start stop : Int) : List Int :=
  (List.range (stop - start).toNat).map fun (k : Nat) => start + (k : Int)

/-- `parse_node_range` from the source: a string with a dash is split and both
parts converted with `int` giving `range(start, end+1)`; otherwise the whole
string is converted with `int` giving a singleton.  `.error` models the
`ValueError` that escapes to the caller. -/
def parse_node_range (node_spec : String) : Except String (List Int) :=
  if node_spec.toList.contains '-' then
    match splitOnDash node_spec.toList with
    | [p1, p2] =>
        match pyInt p1, pyInt p2 with
        | some a, some b => .ok (pyRange a (b + 1))
        | _, _ => .error "ValueError"
    | _ => .error "ValueError"
  else
    match pyInt node_spec.toList with
    | some n => .ok [n]
    | none => .error "ValueError"

/-! ### The `Fans` class -/

/-- A `Fans` instance: `__init__` stores exactly host, username and password.
The `headers` dict is a class attribute, not an instance field, and is passed
to the methods explicitly here (see `ProcState` for the sharing itself). -/
structure Fans where
  host : String
  username : String
  password : String
deriving DecidableEq, Repr

/-- The class-level initial value of `Fans.headers`. -/
def initHeaders : Headers :=
  [("content-type", "application/json"),
   ("User-Agent", "Mozilla/5.0 (Windows NT 10.0; Win64; x64) AppleWebKit/537.36 (KHTML, like Gecko) Chrome/108.0.0.0 Safari/537.36 Edg/117.0.2045.60")]

/-- URL of the challenge endpoint. -/
def randomtagUrl (host : String) : String := "https://" ++ host ++ "/api/randomtag"

/-- URL of the login endpoint. -/
def sessionUrl (host : String) : String := "https://" ++ host ++ "/api/session"

/-- URL of the fan-mode endpoint. -/
def modeUrl (host : String) : String := "https://" ++ host ++ "/api/settings/fans-mode"

/-- URL of the per-fan duty endpoint, `/api/settings/fan/{fan_index}`. -/
def fanUrl (host : String) (fan_index : Nat) : String :=
  "https://" ++ host ++ "/api/settings/fan/" ++ toString fan_index

/-- `Fans.get_random`: GET `/api/randomtag` and return `res.json()["random"]`.
Returns the request issued together with the outcome; a missing `random` field
models the Python `KeyError`. -/
def Fans.get_random (f : Fans) (server : Server) (headers : Headers) :
    HttpRequest × Except String JVal :=
  let req : HttpRequest := ⟨"GET", randomtagUrl f.host, headers, []⟩
  (req,
    match server req with
    | .error e => .error e
    | .ok res =>
        match jget res.body "random" with
        | none => .error "KeyError: random"
        | some v => .ok v)

/-- The login POST request built by `Fans.get_session` after it has switched
`content-type` to form encoding: credentials plus the challenge. -/
def sessionRequest (f : Fans) (headers : Headers) (random_string : JVal) : HttpRequest :=
  ⟨"POST", sessionUrl f.host,
   hset headers "content-type" "application/x-www-form-urlencoded; charset=UTF-8",
   [("encrypt_flag", .n 0),
    ("username", .s f.username),
    ("password", .s f.password),
    ("login_tag", .s random_string.pyStr)]⟩

/-- Characters matched by the lazy group of `QSESSIONID=(.*?);`: everything up
to the first `;`, failing if a newline (which `.` does not match) or the end of
the string comes first. -/
def uptoSemi : List Char → Option (List Char)
  | [] => none
  | ';' :: _ => some []
  | '\n' :: _ => none
  | c :: rest => (uptoSemi rest).map (c :: ·)

/-- Match a literal character sequence at the front, returning the remainder. -/
def dropLit : List Char → List Char → Option (List Char)
  | [], rest => some rest
  | _ :: _, [] => none
  | c :: cs, r :: rs => if c = r then dropLit cs rs else none

/-- First match of `re.findall("QSESSIONID=(.*?);", s)`: the earliest position
where the literal `QSESSIONID=` occurs followed by a `;` on the same line. -/
def findQAux : List Char → Option (List Char)
  | [] => none
  | c :: rest =>
      match dropLit ("QSESSIONID=".toList) (c :: rest) with
      | some after =>
          match uptoSemi after with
          | some tok => some tok
          | none => findQAux rest
      | none => findQAux rest

/-- `re.findall("QSESSIONID=(.*?);", s)[0]`: `none` models the `IndexError`
raised when the pattern has no match. -/
def findQSessionId (s : String) : Option String :=
  (findQAux s.toList).map fun l => ⟨l⟩

/-- `Fans.get_session`: switches `content-type` to form encoding, POSTs the
credentials with the challenge, extracts the `QSESSIONID` cookie value from the
`Set-Cookie` response header and the CSRF token from the JSON body, then
mutates the header dict (`X-Csrftoken`, `Cookie`, `content-type` back to JSON).
Returns the header dict as left after the call, the request issued, and the
outcome (`.error` models the raised exception: transport failure, `KeyError`
on a missing header/field, or `IndexError` when the cookie pattern has no
match). -/
def Fans.get_session (f : Fans) (server : Server) (headers : Headers) (random_string : JVal) :
    Headers × HttpRequest × Except String Unit :=
  let h1 := hset headers "content-type" "application/x-www-form-urlencoded; charset=UTF-8"
  let req := sessionRequest f headers random_string
  match server req with
  | .error e => (h1, req, .error e)
  | .ok response =>
      match hget response.respHeaders "Set-Cookie" with
      | none => (h1, req, .error "KeyError: Set-Cookie")
      | some sc =>
          match findQSessionId sc with
          | none => (h1, req, .error "IndexError: list index out of range")
          | some token =>
              match jget response.body "CSRFToken" with
              | none => (h1, req, .error "KeyError: CSRFToken")
              | some csrf =>
                  let h2 := hset h1 "X-Csrftoken" csrf.pyStr
                  let h3 := hset h2 "Cookie"
                    ("lang=zh-cn;QSESSIONID=" ++ token ++ "; refresh_disable=1")
                  let h4 := hset h3 "content-type" "application/json"
                  (h4, req, .ok ())

/-- `Fans.fans_mode`: PUT `{control_mode: mode}` to the fans-mode endpoint and
print the response text.  Returns the request and, on success, the printed
line. -/
def Fans.fans_mode (f : Fans) (server : Server) (headers : Headers) (mode : String) :
    HttpRequest × Except String String :=
  let req : HttpRequest := ⟨"PUT", modeUrl f.host, headers, [("control_mode", .s mode)]⟩
  (req,
    match server req with
    | .error e => .error e
    | .ok response => .ok ("response: " ++ response.text))

/-- The per-fan PUT request `{duty: rate}` to `/api/settings/fan/{i}`. -/
def fanReq (host : String) (headers : Headers) (rate : Int) (fan_index : Nat) : HttpRequest :=
  ⟨"PUT", fanUrl host fan_index, headers, [("duty", .n rate)]⟩

/-- `change_single_fan` (the closure inside `Fans.change_fans`): PUT the duty
and report the duty read back from the response, `The index {i} fan change to
{duty} %`.  `.error` models the exception later caught by the collecting
loop. -/
def change_single_fan (server : Server) (host : String) (headers : Headers)
    (rate : Int) (fan_index : Nat) : Except String String :=
  match server (fanReq host headers rate fan_index) with
  | .error e => .error e
  | .ok response =>
      match jget response.body "duty" with
      | none => .error "KeyError: duty"
      | some v => .ok (s!"The index {fan_index} fan change to {v.pyStr} %")

/-- `Fans.change_fans`: one task per fan index in `range(fans)` submitted to a
pool of `fans` workers; each entry records the index, the request issued and
the task's outcome.  The tasks are independent, and `as_completed` collects
every outcome individually, so the fan-out is modelled as the list of per-index
results. -/
def Fans.change_fans (f : Fans) (server : Server) (headers : Headers)
    (rate : Int) (fans : Nat) : List (Nat × HttpRequest × Except String String) :=
  (List.range fans).map fun i =>
    (i, fanReq f.host headers rate i, change_single_fan server f.host headers rate i)

/-- What the `as_completed` loop leaves on the console for one task: the
task's own report on success, the caught-and-logged line on failure. -/
def fan_print : Nat × HttpRequest × Except String String → String
  | (_, _, .ok msg) => msg
  | (_, _, .error e) => s!"An error occurred while changing fan: {e}"

/-! ### `control_fan`: one node worker -/

/-- The observable behaviour of one node worker: the HTTP requests it issued
in order, the lines it printed in order, and whether it ran to completion
(`.error` models an exception escaping `control_fan` and killing that node's
process). -/
structure NodeRun where
  requests : List HttpRequest
  prints : List String
  result : Except String Unit

/-- `control_fan`: builds a fresh `Fans` client and runs the linear sequence
challenge fetch → authenticate → set mode to manual → fan duty fan-out →
completion message.  Each step's exception propagates, skipping the rest of
the sequence; the fan-out itself catches its tasks' exceptions and never
raises. -/
def control_fan (server : Server) (host username password : String)
    (rate : Int) (fans : Nat) : NodeRun :=
  let node_f : Fans := ⟨host, username, password⟩
  let step1 := node_f.get_random server initHeaders
  match step1.2 with
  | .error e => ⟨[step1.1], [], .error e⟩
  | .ok random_string =>
      let step2 := node_f.get_session server initHeaders random_string
      match step2.2.2 with
      | .error e => ⟨[step1.1, step2.2.1], [], .error e⟩
      | .ok _ =>
          let step3 := node_f.fans_mode server step2.1 "manual"
          match step3.2 with
          | .error e => ⟨[step1.1, step2.2.1, step3.1], [], .error e⟩
          | .ok modeLine =>
              let results := node_f.change_fans server step2.1 rate fans
              ⟨[step1.1, step2.2.1, step3.1] ++ results.map (fun x => x.2.1),
               [modeLine] ++ results.map fan_print
                 ++ [s!"Completed fan control for node {host}"],
               .ok ()⟩

/-! ### The class-level `headers` dict -/

/-- The mutable state of one worker process: the single dict object stored on
the `Fans` class itself.  `self.headers["k"] = v` in the source is an item
assignment on this class attribute (no instance attribute is ever created), so
every `Fans` instance in the same process reads and writes this one dict. -/
structure ProcState where
  fansClassHeaders : Headers

/-- Attribute lookup `self.headers` on any instance: it falls through to the
class attribute, the one shared dict of the process. -/
def Fans.headersView (_ : Fans) (st : ProcState) : Headers :=
  st.fansClassHeaders

/-- `Fans.get_session` as it acts on the process state: the instance reads the
shared class dict through `self.headers` and its item assignments mutate that
same dict. -/
def Fans.get_session_shared (f : Fans) (server : Server) (st : ProcState)
    (random_string : JVal) : ProcState × Except String Unit :=
  let out := f.get_session server (f.headersView st) random_string
  (⟨out.1⟩, out.2.2)

/-! ### `main`: argument handling -/

/-- The warning loop of `main` over the parsed node list: one line per node id
outside `1..5`, in list order. -/
def node_range_warnings : List Int → List String
  | [] => []
  | n :: rest =>
      (if n < 1 ∨ n > 5 then [s!"Warning: Node {n} is out of range (1-5). It will be skipped."]
       else [])
        ++ node_range_warnings rest

/-- The filtering comprehension of `main`: keep the ids in `1..5`. -/
def filter_valid_nodes (nodes : List Int) : List Int :=
  nodes.filter fun n => 1 ≤ n ∧ n ≤ 5

/-- The node-argument handling of `main` (`try: parse … except ValueError`):
on a parse the out-of-range ids are warned about and filtered out; on a
`ValueError` a warning is printed and the prior default `[1,2,3,4,5]` (all
nodes) is kept.  Returns (printed warnings, nodes_to_control). -/
def resolve_nodes (arg : String) : List String × List Int :=
  match parse_node_range arg with
  | .ok ns => (node_range_warnings ns, filter_valid_nodes ns)
  | .error _ => ([s!"Invalid node specification: {arg}. Using all nodes."], [1, 2, 3, 4, 5])

/-- The rate-argument handling of `main` (`try: rate = int(argv[2]) …`): on a
`ValueError` the rate keeps its prior value and a warning is printed; an
integer outside `0..100` is warned about but still used.  Returns (printed
warnings, applied rate). -/
def parse_rate_arg (arg : String) (rate : Int) : List String × Int :=
  match pyInt arg.toList with
  | some r =>
      ((if r < 0 ∨ r > 100
        then [s!"Warning: Fan rate should be between 0-100. Using provided value: {r}%"]
        else []),
       r)
  | none => ([s!"Invalid rate parameter: {arg}. Using default rate: {rate}%"], rate)

/-! ### Claim theorems -/

/-- A server that echoes every request's JSON body back as the response body
(so a duty PUT gets its duty echoed), used to instantiate theorems. -/
def echoFanServer : Server := fun req =>
  .ok ⟨[("Set-Cookie", "QSESSIONID=abc123; path=/")], req.body, "ok"⟩

/-- A server that fails with a transport error on the duty PUT for fan index 1
of host `h` and answers every other request successfully (echoing the request
body, plus login fields), used to instantiate theorems. -/
def flakyFanServer : Server := fun req =>
  if req.url = fanUrl "h" 1 then .error "boom"
  else .ok ⟨[("Set-Cookie", "QSESSIONID=abc123; path=/")],
            req.body ++ [("random", .s "r1"), ("CSRFToken", .s "tok")], "ok"⟩

/-- A server whose every response carries a fixed login cookie and CSRF token,
used to instantiate theorems. -/
def loginOkServer : Server := fun _ =>
  .ok ⟨[("Set-Cookie", "QSESSIONID=abc123; path=/")], [("CSRFToken", .s "tok")], "ok"⟩

/-! ### Theorems -/

theorem hget_hset_same (m : Headers) (k v : String) : hget (hset m k v) k = some v := by
  induction m with
  | nil => simp [hset, hget]
  | cons p rest ih =>
      by_cases h : p.1 = k
      · simp [hset, h, hget]
      · simp [hset, h, hget, ih]

theorem hget_hset_other (m : Headers) (k k' v : String) (hne : k' ≠ k) :
    hget (hset m k v) k' = hget m k' := by
  induction m with
  | nil => simp [hset, hget, Ne.symm hne]
  | cons p rest ih =>
      obtain ⟨pk, pv⟩ := p
      by_cases h : pk = k
      · subst h
        simp [hset, hget, Ne.symm hne]
      · simp [hset, h, hget, ih]

example : parse_node_range "3" = .ok [3] := by decide
example : parse_node_range "2-4" = .ok [2, 3, 4] := by decide
example : parse_node_range "4-2" = .ok [] := by decide
example : parse_node_range "x" = .error "ValueError" := by decide
example : parse_node_range "-3" = .error "ValueError" := by decide

example : findQSessionId "lang=x;QSESSIONID=abc123; path=/" = some "abc123" := by decide
example : findQSessionId "no-session-here" = none := by decide

/-! ### Helper lemmas: splitting, ranges -/

theorem splitOnDash_ne_nil (l : List Char) : splitOnDash l ≠ [] := by
  cases l with
  | nil => simp [splitOnDash]
  | cons c rest =>
      simp only [splitOnDash]
      split
      · simp
      · split <;> simp

theorem splitOnDash_no_dash (l : List Char) (h : '-' ∉ l) : splitOnDash l = [l] := by
  induction l with
  | nil => simp [splitOnDash]
  | cons c rest ih =>
      have hc : ¬(c = '-') := fun e => h (e ▸ List.mem_cons_self c rest)
      have hrest : '-' ∉ rest := fun hm => h (List.mem_cons_of_mem _ hm)
      simp [splitOnDash, hc, ih hrest]

theorem splitOnDash_append (la lb : List Char) (h : '-' ∉ la) :
    splitOnDash (la ++ '-' :: lb) = la :: splitOnDash lb := by
  induction la with
  | nil => simp [splitOnDash]
  | cons c rest ih =>
      have hc : ¬(c = '-') := fun e => h (e ▸ List.mem_cons_self c rest)
      have hrest : '-' ∉ rest := fun hm => h (List.mem_cons_of_mem _ hm)
      simp [splitOnDash, hc, ih hrest]

theorem mem_pyRange (start stop x : Int) : x ∈ pyRange start stop ↔ start ≤ x ∧ x < stop := by
  simp only [pyRange, List.mem_map, List.mem_range]
  constructor
  · rintro ⟨k, hk, rfl⟩
    omega
  · rintro ⟨h1, h2⟩
    exact ⟨(x - start).toNat, by omega, by omega⟩

theorem pyRange_pairwise (start stop : Int) : (pyRange start stop).Pairwise (· < ·) := by
  exact List.Pairwise.map _ (fun a b (h : a < b) => by omega) (List.pairwise_lt_range _)

theorem pyRange_eq_nil (start stop : Int) (h : stop ≤ start) : pyRange start stop = [] := by
  have h0 : (stop - start).toNat = 0 := by omega
  simp [pyRange, h0]

theorem toList_dash_append (sa sb : String) :
    (sa ++ "-" ++ sb).toList = sa.toList ++ '-' :: sb.toList := by
  simp [String.toList, String.data_append]

theorem parse_node_range_dash (sa sb : String) (a b : Int)
    (ha : '-' ∉ sa.toList) (hb : '-' ∉ sb.toList)
    (hpa : pyInt sa.toList = some a) (hpb : pyInt sb.toList = some b) :
    parse_node_range (sa ++ "-" ++ sb) = .ok (pyRange a (b + 1)) := by
  have key : (sa ++ "-" ++ sb).toList = sa.toList ++ '-' :: sb.toList := toList_dash_append sa sb
  have hmem : '-' ∈ sa.toList ++ '-' :: sb.toList :=
    List.mem_append_right _ (List.mem_cons_self _ _)
  have hcontains : (sa.toList ++ '-' :: sb.toList).contains '-' = true := by simp
  have hsplit : splitOnDash (sa.toList ++ '-' :: sb.toList) = [sa.toList, sb.toList] := by
    rw [splitOnDash_append _ _ ha, splitOnDash_no_dash _ hb]
  simp only [parse_node_range, key, hcontains, if_true, hsplit, hpa, hpb]

theorem parse_node_range_nodash (s : String) (n : Int)
    (h : '-' ∉ s.toList) (hp : pyInt s.toList = some n) :
    parse_node_range s = .ok [n] := by
  have hc : s.toList.contains '-' = false := by simpa using h
  unfold parse_node_range
  rw [hc, hp]
  simp

theorem node_range_warnings_mem (ns : List Int) (n : Int) (hmem : n ∈ ns)
    (hout : n < 1 ∨ n > 5) :
    (s!"Warning: Node {n} is out of range (1-5). It will be skipped.")
      ∈ node_range_warnings ns := by
  induction ns with
  | nil => cases hmem
  | cons m rest ih =>
      rcases List.mem_cons.mp hmem with h | h
      · subst h
        simp only [node_range_warnings, if_pos hout]
        exact List.mem_append_left _ (by simp)
      · simp only [node_range_warnings]
        exact List.mem_append_right _ (ih h)

/-- C5: `parse_node_range` maps a single-number string to the singleton list
of that integer, and a string `"a-b"` (two numbers joined by a dash) to the
inclusive ascending list of the integers from `a` to `b`; in particular
`"3" ↦ [3]` and `"2-4" ↦ [2,3,4]` (see the witness). -/
theorem parse_node_range_singleton_and_range :
    ∀ (s sa sb : String) (n a b : Int),
      ('-' ∉ s.toList → pyInt s.toList = some n → parse_node_range s = .ok [n]) ∧
      ('-' ∉ sa.toList → '-' ∉ sb.toList →
        pyInt sa.toList = some a → pyInt sb.toList = some b →
        parse_node_range (sa ++ "-" ++ sb) = .ok (pyRange a (b + 1)) ∧
        (pyRange a (b + 1)).Pairwise (· < ·) ∧
        (∀ x : Int, x ∈ pyRange a (b + 1) ↔ a ≤ x ∧ x ≤ b)) := by
  intro s sa sb n a b
  refine ⟨fun h hp => parse_node_range_nodash s n h hp, fun ha hb hpa hpb => ?_⟩
  refine ⟨parse_node_range_dash sa sb a b ha hb hpa hpb, pyRange_pairwise _ _, fun x => ?_⟩
  rw [mem_pyRange]
  omega

theorem parse_node_range_singleton_and_range_witness :
    parse_node_range "3" = .ok [3] ∧
    parse_node_range ("2" ++ "-" ++ "4") = .ok (pyRange 2 (4 + 1)) ∧
    ((3 : Int) ∈ pyRange 2 (4 + 1) ↔ (2 : Int) ≤ 3 ∧ (3 : Int) ≤ 4) :=
  ⟨(parse_node_range_singleton_and_range "3" "2" "4" 3 2 4).1 (by decide) (by decide),
   ((parse_node_range_singleton_and_range "3" "2" "4" 3 2 4).2 (by decide) (by decide)
      (by decide) (by decide)).1,
   ((parse_node_range_singleton_and_range "3" "2" "4" 3 2 4).2 (by decide) (by decide)
      (by decide) (by decide)).2.2 3⟩

/-- C9: a syntactically valid but reversed range `"a-b"` with `a > b` parses
to the empty list without raising, so the orchestrator does not fall back to
the all-nodes default and instead controls zero nodes. -/
theorem reversed_range_empty_no_fallback :
    ∀ (sa sb : String) (a b : Int),
      '-' ∉ sa.toList → '-' ∉ sb.toList →
      pyInt sa.toList = some a → pyInt sb.toList = some b →
      b < a →
      parse_node_range (sa ++ "-" ++ sb) = .ok [] ∧
      resolve_nodes (sa ++ "-" ++ sb) = ([], []) := by
  intro sa sb a b ha hb hpa hpb hlt
  have hp : parse_node_range (sa ++ "-" ++ sb) = .ok (pyRange a (b + 1)) :=
    parse_node_range_dash sa sb a b ha hb hpa hpb
  have hnil : pyRange a (b + 1) = [] := pyRange_eq_nil _ _ (by omega)
  rw [hnil] at hp
  exact ⟨hp, by simp [resolve_nodes, hp, node_range_warnings, filter_valid_nodes]⟩

theorem reversed_range_empty_no_fallback_witness :
    parse_node_range ("4" ++ "-" ++ "2") = .ok [] ∧
    resolve_nodes ("4" ++ "-" ++ "2") = ([], []) :=
  reversed_range_empty_no_fallback "4" "2" 4 2 (by decide) (by decide) (by decide)
    (by decide) (by decide)

/-- C6: every parsed node id outside 1..5 produces a warning line and is
removed before node resolution, and the surviving control list is the
order-preserving filter (a sublist) of the parsed input list. -/
theorem out_of_range_nodes_warned_and_filtered :
    ∀ (arg : String) (ns : List Int),
      (parse_node_range arg = .ok ns →
        resolve_nodes arg = (node_range_warnings ns, filter_valid_nodes ns)) ∧
      List.Sublist (filter_valid_nodes ns) ns ∧
      (∀ n : Int, n ∈ filter_valid_nodes ns ↔ n ∈ ns ∧ 1 ≤ n ∧ n ≤ 5) ∧
      (∀ n : Int, n ∈ ns → (n < 1 ∨ n > 5) →
        (s!"Warning: Node {n} is out of range (1-5). It will be skipped.")
          ∈ node_range_warnings ns) := by
  intro arg ns
  refine ⟨fun h => by simp [resolve_nodes, h], List.filter_sublist ns, fun n => ?_,
    fun n hmem hout => node_range_warnings_mem ns n hmem hout⟩
  simp [filter_valid_nodes, List.mem_filter]

theorem out_of_range_nodes_warned_and_filtered_witness :
    resolve_nodes "0-2" = (node_range_warnings [0, 1, 2], filter_valid_nodes [0, 1, 2]) ∧
    ((0 : Int) ∈ filter_valid_nodes [0, 1, 2] ↔ (0 : Int) ∈ [(0 : Int), 1, 2] ∧ (1 : Int) ≤ 0 ∧ (0 : Int) ≤ 5) ∧
    ("Warning: Node 0 is out of range (1-5). It will be skipped.")
      ∈ node_range_warnings [0, 1, 2] :=
  ⟨(out_of_range_nodes_warned_and_filtered "0-2" [0, 1, 2]).1 (by decide),
   (out_of_range_nodes_warned_and_filtered "0-2" [0, 1, 2]).2.2.1 0,
   (out_of_range_nodes_warned_and_filtered "0-2" [0, 1, 2]).2.2.2 0 (by decide) (by decide)⟩

/-- C7: if the node-specification argument cannot be parsed into integers (a
ValueError), the orchestrator prints a warning and falls back to controlling
all nodes 1..5 instead of aborting. -/
theorem invalid_node_spec_falls_back :
    ∀ (arg e : String),
      parse_node_range arg = .error e →
      resolve_nodes arg =
        ([s!"Invalid node specification: {arg}. Using all nodes."], [1, 2, 3, 4, 5]) := by
  intro arg e h
  simp [resolve_nodes, h]

theorem invalid_node_spec_falls_back_witness :
    resolve_nodes "x" =
      (["Invalid node specification: x. Using all nodes."], [1, 2, 3, 4, 5]) :=
  invalid_node_spec_falls_back "x" "ValueError" (by decide)

/-- C8: a non-integer rate string keeps the prior default rate 20 with a
warning; an integer rate outside 0..100 is warned about but still used as the
applied rate (permissive, not clamped). -/
theorem rate_arg_permissive :
    ∀ (arg : String) (r : Int),
      (pyInt arg.toList = none →
        parse_rate_arg arg 20 =
          ([s!"Invalid rate parameter: {arg}. Using default rate: {(20 : Int)}%"], 20)) ∧
      (pyInt arg.toList = some r → (r < 0 ∨ r > 100) →
        parse_rate_arg arg 20 =
          ([s!"Warning: Fan rate should be between 0-100. Using provided value: {r}%"], r)) := by
  intro arg r
  constructor
  · intro h
    unfold parse_rate_arg
    rw [h]
  · intro h hout
    unfold parse_rate_arg
    rw [h]
    simp only [if_pos hout]

theorem rate_arg_permissive_witness :
    parse_rate_arg "abc" 20 =
      (["Invalid rate parameter: abc. Using default rate: 20%"], 20) ∧
    parse_rate_arg "150" 20 =
      (["Warning: Fan rate should be between 0-100. Using provided value: 150%"], 150) :=
  ⟨(rate_arg_permissive "abc" 0).1 (by decide),
   (rate_arg_permissive "150" 150).2 (by decide) (by decide)⟩

theorem get_random_req (f : Fans) (server : Server) (headers : Headers) :
    (f.get_random server headers).1 = ⟨"GET", randomtagUrl f.host, headers, []⟩ := rfl

theorem fans_mode_req (f : Fans) (server : Server) (headers : Headers) (mode : String) :
    (f.fans_mode server headers mode).1
      = ⟨"PUT", modeUrl f.host, headers, [("control_mode", .s mode)]⟩ := rfl

theorem get_session_req (f : Fans) (server : Server) (headers : Headers) (rnd : JVal) :
    (f.get_session server headers rnd).2.1 = sessionRequest f headers rnd := by
  simp only [Fans.get_session]
  split
  · rfl
  · split
    · rfl
    · split
      · rfl
      · split
        · rfl
        · rfl

theorem change_fans_requests (f : Fans) (server : Server) (headers : Headers)
    (rate : Int) (fans : Nat) :
    (f.change_fans server headers rate fans).map (fun x => x.2.1)
      = (List.range fans).map (fanReq f.host headers rate) := by
  simp only [Fans.change_fans, List.map_map]
  rfl

theorem change_fans_length (f : Fans) (server : Server) (headers : Headers)
    (rate : Int) (fans : Nat) :
    (f.change_fans server headers rate fans).length = fans := by
  simp [Fans.change_fans]

theorem change_fans_getElem (f : Fans) (server : Server) (headers : Headers)
    (rate : Int) (fans i : Nat) (hi : i < fans) :
    (f.change_fans server headers rate fans)[i]?
      = some (i, fanReq f.host headers rate i,
          change_single_fan server f.host headers rate i) := by
  simp [Fans.change_fans, List.getElem?_map, List.getElem?_range hi]

/-- C1: for every fan count `fans` and rate, `change_fans` issues exactly one
PUT with body `{duty: rate}` to `/api/settings/fan/{i}` for each index
`i < fans` (one task per index of `range(fans)`, the pool bounded by the fan
count), and when the server echoes the requested duty back for index `i`, the
report for `i` shows that duty. -/
theorem change_fans_one_put_per_fan_echo :
    ∀ (server : Server) (f : Fans) (headers : Headers) (rate : Int) (fans : Nat),
      ((f.change_fans server headers rate fans).map (fun x => x.2.1)
        = (List.range fans).map (fanReq f.host headers rate)) ∧
      (∀ i : Nat, i < fans →
        ∀ resp : HttpResponse, server (fanReq f.host headers rate i) = .ok resp →
          jget resp.body "duty" = some (.n rate) →
          (f.change_fans server headers rate fans)[i]?
            = some (i, fanReq f.host headers rate i,
                .ok s!"The index {i} fan change to {rate} %")) := by
  intro server f headers rate fans
  refine ⟨change_fans_requests f server headers rate fans, fun i hi resp hresp hduty => ?_⟩
  rw [change_fans_getElem f server headers rate fans i hi]
  unfold change_single_fan
  simp only [hresp, hduty]
  rfl

theorem change_fans_one_put_per_fan_echo_witness :
    ((Fans.mk "h" "u" "p").change_fans echoFanServer initHeaders 30 2)[0]?
      = some (0, fanReq "h" initHeaders 30 0, .ok "The index 0 fan change to 30 %") :=
  (change_fans_one_put_per_fan_echo echoFanServer ⟨"h", "u", "p"⟩ initHeaders 30 2).2
    0 (by decide) ⟨[("Set-Cookie", "QSESSIONID=abc123; path=/")], [("duty", .n 30)], "ok"⟩
    rfl rfl

theorem fans_mode_ok_server (f : Fans) (server : Server) (headers : Headers)
    (mode line : String)
    (h : (f.fans_mode server headers mode).2 = .ok line) :
    ∃ resp, server ⟨"PUT", modeUrl f.host, headers, [("control_mode", .s mode)]⟩ = .ok resp := by
  simp only [Fans.fans_mode] at h
  rcases hs : server ⟨"PUT", modeUrl f.host, headers, [("control_mode", .s mode)]⟩ with e | resp
  · rw [hs] at h
    simp at h
  · exact ⟨resp, rfl⟩

theorem control_fan_shape (server : Server) (host username password : String)
    (rate : Int) (fans : Nat) :
    (∃ e, ((Fans.mk host username password).get_random server initHeaders).2 = .error e ∧
      control_fan server host username password rate fans
        = ⟨[⟨"GET", randomtagUrl host, initHeaders, []⟩], [], .error e⟩) ∨
    (∃ rnd e, ((Fans.mk host username password).get_random server initHeaders).2 = .ok rnd ∧
      ((Fans.mk host username password).get_session server initHeaders rnd).2.2 = .error e ∧
      control_fan server host username password rate fans
        = ⟨[⟨"GET", randomtagUrl host, initHeaders, []⟩,
            sessionRequest (Fans.mk host username password) initHeaders rnd], [], .error e⟩) ∨
    (∃ rnd e, ((Fans.mk host username password).get_random server initHeaders).2 = .ok rnd ∧
      ((Fans.mk host username password).get_session server initHeaders rnd).2.2 = .ok () ∧
      ((Fans.mk host username password).fans_mode server
          ((Fans.mk host username password).get_session server initHeaders rnd).1 "manual").2
        = .error e ∧
      control_fan server host username password rate fans
        = ⟨[⟨"GET", randomtagUrl host, initHeaders, []⟩,
            sessionRequest (Fans.mk host username password) initHeaders rnd,
            ⟨"PUT", modeUrl host,
              ((Fans.mk host username password).get_session server initHeaders rnd).1,
              [("control_mode", .s "manual")]⟩], [], .error e⟩) ∨
    (∃ rnd modeLine,
      ((Fans.mk host username password).get_random server initHeaders).2 = .ok rnd ∧
      ((Fans.mk host username password).get_session server initHeaders rnd).2.2 = .ok () ∧
      ((Fans.mk host username password).fans_mode server
          ((Fans.mk host username password).get_session server initHeaders rnd).1 "manual").2
        = .ok modeLine ∧
      control_fan server host username password rate fans
        = ⟨[⟨"GET", randomtagUrl host, initHeaders, []⟩,
            sessionRequest (Fans.mk host username password) initHeaders rnd,
            ⟨"PUT", modeUrl host,
              ((Fans.mk host username password).get_session server initHeaders rnd).1,
              [("control_mode", .s "manual")]⟩]
            ++ (List.range fans).map
                (fanReq host ((Fans.mk host username password).get_session server initHeaders rnd).1 rate),
           [modeLine]
             ++ ((Fans.mk host username password).change_fans server
                   ((Fans.mk host username password).get_session server initHeaders rnd).1
                   rate fans).map fan_print
             ++ [s!"Completed fan control for node {host}"],
           .ok ()⟩) := by
  rcases h1 : ((Fans.mk host username password).get_random server initHeaders).2 with e1 | rnd
  · refine Or.inl ⟨e1, rfl, ?_⟩
    simp only [control_fan, h1]
    rfl
  · rcases h2 : ((Fans.mk host username password).get_session server initHeaders rnd).2.2
      with e2 | ⟨⟩
    · refine Or.inr (Or.inl ⟨rnd, e2, rfl, h2, ?_⟩)
      simp only [control_fan, h1, h2, get_session_req]
      rfl
    · rcases h3 : ((Fans.mk host username password).fans_mode server
          ((Fans.mk host username password).get_session server initHeaders rnd).1 "manual").2
        with e3 | modeLine
      · refine Or.inr (Or.inr (Or.inl ⟨rnd, e3, rfl, h2, h3, ?_⟩))
        simp only [control_fan, h1, h2, h3, get_session_req, fans_mode_req]
        rfl
      · refine Or.inr (Or.inr (Or.inr ⟨rnd, modeLine, rfl, h2, h3, ?_⟩))
        simp only [control_fan, h1, h2, h3, get_session_req, fans_mode_req,
          change_fans_requests]
        rfl

theorem control_fan_completion (server : Server) (host username password : String)
    (rate : Int) (fans : Nat)
    (h : (control_fan server host username password rate fans).result = .ok ()) :
    (control_fan server host username password rate fans).prints.getLast?
      = some s!"Completed fan control for node {host}" := by
  rcases control_fan_shape server host username password rate fans with
    ⟨e, h1, hcf⟩ | ⟨rnd, e, h1, h2, hcf⟩ | ⟨rnd, e, h1, h2, h3, hcf⟩ |
    ⟨rnd, modeLine, h1, h2, h3, hcf⟩
  · rw [hcf] at h
    simp at h
  · rw [hcf] at h
    simp at h
  · rw [hcf] at h
    simp at h
  · rw [hcf]
    show (_ :: (_ ++ _)).getLast? = _
    rw [← List.cons_append, List.getLast?_concat]

/-- C2: when the fan task for index j raises (the server fails its duty PUT),
the exception is caught and logged by the collecting loop; the fan tasks for
every other index of the same node still run and are reported unchanged, the
result list keeps one entry per fan index, and any node run that reaches the
fan stage still prints its overall completion message last. -/
theorem fan_failure_isolated :
    ∀ (server : Server) (f : Fans) (headers : Headers) (rate : Int) (fans j : Nat) (e : String),
      j < fans →
      server (fanReq f.host headers rate j) = .error e →
      (f.change_fans server headers rate fans).length = fans ∧
      (f.change_fans server headers rate fans)[j]?
        = some (j, fanReq f.host headers rate j, .error e) ∧
      fan_print (j, fanReq f.host headers rate j, .error e)
        = s!"An error occurred while changing fan: {e}" ∧
      (∀ i : Nat, i < fans → i ≠ j →
        (f.change_fans server headers rate fans)[i]?
          = some (i, fanReq f.host headers rate i,
              change_single_fan server f.host headers rate i)) ∧
      (∀ username password : String,
        (control_fan server f.host username password rate fans).result = .ok () →
        (control_fan server f.host username password rate fans).prints.getLast?
          = some s!"Completed fan control for node {f.host}") := by
  intro server f headers rate fans j e hj hfail
  refine ⟨change_fans_length f server headers rate fans, ?_, rfl, ?_, ?_⟩
  · rw [change_fans_getElem f server headers rate fans j hj]
    unfold change_single_fan
    simp only [hfail]
  · intro i hi _
    exact change_fans_getElem f server headers rate fans i hi
  · intro username password h
    exact control_fan_completion server f.host username password rate fans h

theorem fan_failure_isolated_witness :
    ((Fans.mk "h" "u" "p").change_fans flakyFanServer initHeaders 30 2).length = 2 ∧
    ((Fans.mk "h" "u" "p").change_fans flakyFanServer initHeaders 30 2)[1]?
      = some (1, fanReq "h" initHeaders 30 1, .error "boom") ∧
    ((Fans.mk "h" "u" "p").change_fans flakyFanServer initHeaders 30 2)[0]?
      = some (0, fanReq "h" initHeaders 30 0,
          change_single_fan flakyFanServer "h" initHeaders 30 0) :=
  ⟨(fan_failure_isolated flakyFanServer ⟨"h", "u", "p"⟩ initHeaders 30 2 1 "boom"
      (by decide) rfl).1,
   (fan_failure_isolated flakyFanServer ⟨"h", "u", "p"⟩ initHeaders 30 2 1 "boom"
      (by decide) rfl).2.1,
   (fan_failure_isolated flakyFanServer ⟨"h", "u", "p"⟩ initHeaders 30 2 1 "boom"
      (by decide) rfl).2.2.2.1 0 (by decide) (by decide)⟩

/-- C3: each node worker runs the linear sequence challenge GET, session POST,
mode PUT, then the per-fan duty PUTs, with no branching and no retries: the
request trace is the challenge request alone, or followed by the session
request, or followed by the mode request (these are the traces of a step
failing, with every later request skipped), or — only when every step
succeeded and the mode call returned — all three followed by exactly one duty
PUT per fan index.  The run is a pure function of this node's own arguments,
so other nodes are unaffected. -/
theorem control_fan_linear_no_retry :
    ∀ (server : Server) (host username password : String) (rate : Int) (fans : Nat),
      ∃ (req2 req3 : HttpRequest) (h' : Headers),
        req2.method = "POST" ∧ req2.url = sessionUrl host ∧
        req3.method = "PUT" ∧ req3.url = modeUrl host ∧
        (((control_fan server host username password rate fans).result.isOk = false ∧
          ((control_fan server host username password rate fans).requests
              = [⟨"GET", randomtagUrl host, initHeaders, []⟩] ∨
           (control_fan server host username password rate fans).requests
              = [⟨"GET", randomtagUrl host, initHeaders, []⟩, req2] ∨
           (control_fan server host username password rate fans).requests
              = [⟨"GET", randomtagUrl host, initHeaders, []⟩, req2, req3])) ∨
         ((control_fan server host username password rate fans).result = .ok () ∧
          (∃ resp3, server req3 = .ok resp3) ∧
          (control_fan server host username password rate fans).requests
            = [⟨"GET", randomtagUrl host, initHeaders, []⟩, req2, req3]
              ++ (List.range fans).map (fanReq host h' rate))) := by
  intro server host username password rate fans
  rcases control_fan_shape server host username password rate fans with
    ⟨e, h1, hcf⟩ | ⟨rnd, e, h1, h2, hcf⟩ | ⟨rnd, e, h1, h2, h3, hcf⟩ |
    ⟨rnd, modeLine, h1, h2, h3, hcf⟩
  · exact ⟨⟨"POST", sessionUrl host, [], []⟩, ⟨"PUT", modeUrl host, [], []⟩, [],
      rfl, rfl, rfl, rfl, Or.inl ⟨by simp [hcf, Except.isOk, Except.toBool], Or.inl (by simp [hcf])⟩⟩
  · exact ⟨sessionRequest ⟨host, username, password⟩ initHeaders rnd,
      ⟨"PUT", modeUrl host, [], []⟩, [],
      rfl, rfl, rfl, rfl, Or.inl ⟨by simp [hcf, Except.isOk, Except.toBool], Or.inr (Or.inl (by simp [hcf]))⟩⟩
  · exact ⟨sessionRequest ⟨host, username, password⟩ initHeaders rnd,
      ⟨"PUT", modeUrl host,
        ((Fans.mk host username password).get_session server initHeaders rnd).1,
        [("control_mode", .s "manual")]⟩, [],
      rfl, rfl, rfl, rfl, Or.inl ⟨by simp [hcf, Except.isOk, Except.toBool], Or.inr (Or.inr (by simp [hcf]))⟩⟩
  · exact ⟨sessionRequest ⟨host, username, password⟩ initHeaders rnd,
      ⟨"PUT", modeUrl host,
        ((Fans.mk host username password).get_session server initHeaders rnd).1,
        [("control_mode", .s "manual")]⟩,
      ((Fans.mk host username password).get_session server initHeaders rnd).1,
      rfl, rfl, rfl, rfl,
      Or.inr ⟨by simp [hcf],
        fans_mode_ok_server (Fans.mk host username password) server
          ((Fans.mk host username password).get_session server initHeaders rnd).1
          "manual" modeLine h3,
        by simp [hcf]⟩⟩

theorem get_session_success_headers (server : Server) (f : Fans) (headers : Headers)
    (rnd : JVal) (resp : HttpResponse) (sc token : String) (csrf : JVal)
    (hresp : server (sessionRequest f headers rnd) = .ok resp)
    (hsc : hget resp.respHeaders "Set-Cookie" = some sc)
    (htok : findQSessionId sc = some token)
    (hcsrf : jget resp.body "CSRFToken" = some csrf) :
    (f.get_session server headers rnd).2.2 = .ok () ∧
    hget (f.get_session server headers rnd).1 "Cookie"
      = some ("lang=zh-cn;QSESSIONID=" ++ token ++ "; refresh_disable=1") ∧
    hget (f.get_session server headers rnd).1 "X-Csrftoken" = some csrf.pyStr ∧
    hget (f.get_session server headers rnd).1 "content-type" = some "application/json" := by
  refine ⟨?_, ?_, ?_, ?_⟩
  · simp only [Fans.get_session, hresp, hsc, htok, hcsrf]
  · simp only [Fans.get_session, hresp, hsc, htok, hcsrf]
    rw [hget_hset_other _ _ _ _ (by decide), hget_hset_same]
  · simp only [Fans.get_session, hresp, hsc, htok, hcsrf]
    rw [hget_hset_other _ _ _ _ (by decide), hget_hset_other _ _ _ _ (by decide),
      hget_hset_same]
  · simp only [Fans.get_session, hresp, hsc, htok, hcsrf]
    rw [hget_hset_same]

/-- C4: a successful `get_session` call mutates the stored header set so that
afterwards Cookie is `lang=zh-cn;QSESSIONID=` ++ token ++ `; refresh_disable=1`
with token the first `QSESSIONID=(.*?);` match of the response's Set-Cookie
header, X-Csrftoken is the CSRFToken field of the JSON body, and content-type
is back to application/json; if the cookie pattern has no match (or Set-Cookie
is absent) or the body lacks CSRFToken, the call raises instead of
completing. -/
theorem get_session_updates_headers :
    ∀ (server : Server) (f : Fans) (headers : Headers) (rnd : JVal),
      (∀ (resp : HttpResponse) (sc token : String) (csrf : JVal),
        server (sessionRequest f headers rnd) = .ok resp →
        hget resp.respHeaders "Set-Cookie" = some sc →
        findQSessionId sc = some token →
        jget resp.body "CSRFToken" = some csrf →
        (f.get_session server headers rnd).2.2 = .ok () ∧
        hget (f.get_session server headers rnd).1 "Cookie"
          = some ("lang=zh-cn;QSESSIONID=" ++ token ++ "; refresh_disable=1") ∧
        hget (f.get_session server headers rnd).1 "X-Csrftoken" = some csrf.pyStr ∧
        hget (f.get_session server headers rnd).1 "content-type"
          = some "application/json") ∧
      (∀ resp : HttpResponse,
        server (sessionRequest f headers rnd) = .ok resp →
        (hget resp.respHeaders "Set-Cookie" = none ∨
         (∃ sc, hget resp.respHeaders "Set-Cookie" = some sc ∧ findQSessionId sc = none) ∨
         jget resp.body "CSRFToken" = none) →
        (f.get_session server headers rnd).2.2 ≠ .ok ()) := by
  intro server f headers rnd
  refine ⟨fun resp sc token csrf hresp hsc htok hcsrf =>
    get_session_success_headers server f headers rnd resp sc token csrf hresp hsc htok hcsrf,
    fun resp hresp hbad => ?_⟩
  rcases hbad with hnone | ⟨sc, hsc, hnotok⟩ | hnocsrf
  · simp only [Fans.get_session, hresp, hnone]
    simp
  · simp only [Fans.get_session, hresp, hsc, hnotok]
    simp
  · rcases hck : hget resp.respHeaders "Set-Cookie" with _ | sc'
    · simp only [Fans.get_session, hresp, hck]
      simp
    · rcases htk : findQSessionId sc' with _ | tok
      · simp only [Fans.get_session, hresp, hck, htk]
        simp
      · simp only [Fans.get_session, hresp, hck, htk, hnocsrf]
        simp

theorem get_session_updates_headers_witness :
    hget ((Fans.mk "h" "u" "p").get_session loginOkServer initHeaders (.s "r1")).1 "Cookie"
      = some "lang=zh-cn;QSESSIONID=abc123; refresh_disable=1" ∧
    hget ((Fans.mk "h" "u" "p").get_session loginOkServer initHeaders (.s "r1")).1 "X-Csrftoken"
      = some "tok" ∧
    hget ((Fans.mk "h" "u" "p").get_session loginOkServer initHeaders (.s "r1")).1 "content-type"
      = some "application/json" :=
  ⟨((get_session_updates_headers loginOkServer ⟨"h", "u", "p"⟩ initHeaders (.s "r1")).1
      ⟨[("Set-Cookie", "QSESSIONID=abc123; path=/")], [("CSRFToken", .s "tok")], "ok"⟩
      "QSESSIONID=abc123; path=/" "abc123" (.s "tok") rfl rfl rfl rfl).2.1,
   ((get_session_updates_headers loginOkServer ⟨"h", "u", "p"⟩ initHeaders (.s "r1")).1
      ⟨[("Set-Cookie", "QSESSIONID=abc123; path=/")], [("CSRFToken", .s "tok")], "ok"⟩
      "QSESSIONID=abc123; path=/" "abc123" (.s "tok") rfl rfl rfl rfl).2.2.1,
   ((get_session_updates_headers loginOkServer ⟨"h", "u", "p"⟩ initHeaders (.s "r1")).1
      ⟨[("Set-Cookie", "QSESSIONID=abc123; path=/")], [("CSRFToken", .s "tok")], "ok"⟩
      "QSESSIONID=abc123; path=/" "abc123" (.s "tok") rfl rfl rfl rfl).2.2.2⟩

/-- C10: `Fans.headers` is class-level, not per-instance state: the header map
observed through any instance is the one dict of the process state, so a
`get_session` run through instance f1 mutates exactly what any other instance
f2 of the same process observes (Cookie, X-Csrftoken, content-type).
Cross-node header isolation therefore rests on each node worker being a
separate OS process (its own `ProcState`), not on the `Fans` class itself. -/
theorem headers_shared_across_instances :
    ∀ (f1 f2 : Fans) (st : ProcState) (server : Server) (rnd : JVal),
      f1.headersView st = f2.headersView st ∧
      f2.headersView (f1.get_session_shared server st rnd).1
        = (f1.get_session server (f1.headersView st) rnd).1 ∧
      (∀ (resp : HttpResponse) (sc token : String) (csrf : JVal),
        server (sessionRequest f1 (f1.headersView st) rnd) = .ok resp →
        hget resp.respHeaders "Set-Cookie" = some sc →
        findQSessionId sc = some token →
        jget resp.body "CSRFToken" = some csrf →
        hget (f2.headersView (f1.get_session_shared server st rnd).1) "Cookie"
          = some ("lang=zh-cn;QSESSIONID=" ++ token ++ "; refresh_disable=1") ∧
        hget (f2.headersView (f1.get_session_shared server st rnd).1) "X-Csrftoken"
          = some csrf.pyStr ∧
        hget (f2.headersView (f1.get_session_shared server st rnd).1) "content-type"
          = some "application/json") := by
  intro f1 f2 st server rnd
  refine ⟨rfl, rfl, fun resp sc token csrf hresp hsc htok hcsrf => ?_⟩
  have h := get_session_success_headers server f1 (f1.headersView st) rnd resp sc token csrf
    hresp hsc htok hcsrf
  exact ⟨h.2.1, h.2.2.1, h.2.2.2⟩

theorem headers_shared_across_instances_witness :
    hget ((Fans.mk "h2" "u" "p").headersView
        ((Fans.mk "h" "u" "p").get_session_shared loginOkServer ⟨initHeaders⟩ (.s "r1")).1)
        "Cookie"
      = some "lang=zh-cn;QSESSIONID=abc123; refresh_disable=1" ∧
    hget ((Fans.mk "h2" "u" "p").headersView
        ((Fans.mk "h" "u" "p").get_session_shared loginOkServer ⟨initHeaders⟩ (.s "r1")).1)
        "content-type"
      = some "application/json" :=
  ⟨((headers_shared_across_instances ⟨"h", "u", "p"⟩ ⟨"h2", "u", "p"⟩ ⟨initHeaders⟩
      loginOkServer (.s "r1")).2.2
      ⟨[("Set-Cookie", "QSESSIONID=abc123; path=/")], [("CSRFToken", .s "tok")], "ok"⟩
      "QSESSIONID=abc123; path=/" "abc123" (.s "tok") rfl rfl rfl rfl).1,
   ((headers_shared_across_instances ⟨"h", "u", "p"⟩ ⟨"h2", "u", "p"⟩ ⟨initHeaders⟩
      loginOkServer (.s "r1")).2.2
      ⟨[("Set-Cookie", "QSESSIONID=abc123; path=/")], [("CSRFToken", .s "tok")], "ok"⟩
      "QSESSIONID=abc123; path=/" "abc123" (.s "tok") rfl rfl rfl rfl).2.2⟩
